import Mathlib

/-!
# Verification of the AI-enhanced store recommendation service

A shallow embedding of the core of `store_rec_service`:

* `app/ai_models.py`  — configuration and data model (pydantic models),
* `app/ai_client.py`  — the provider clients and the factory,
* `app/ai_recommender.py` — the recommendation engine pipeline,
* `app/exceptions.py` — the circuit breaker.

Modelling conventions:

* Python floats are modelled as `ℚ` (exact arithmetic).
* Python exceptions are modelled as values of the `Exc` type; a function that
  can raise returns `Except Exc α`.  Exception messages are elided: only the
  exception class matters to control flow (`except` clauses).
* External collaborators (the HTTP transport `httpx`, the `json` standard
  library, the `pandas`/`sklearn` candidate-selection machinery) are modelled
  as explicit parameters: an HTTP call outcome is a value of `HttpOutcome`, a
  `json.loads` implementation is a function `String → Except Exc Json`, and
  the sampled/ranked product rows feeding candidate construction are a
  function from the (optional) AI user profile to a list of rows.
* Wall-clock readings (`time.time()`) only feed the reported
  `processing_time`; they are modelled as the constant 0.
-/

deriving instance DecidableEq for Except

namespace StoreRec

/-- JSON values, as produced by Python's `json.loads`: `None`, booleans,
numbers, strings, arrays and objects. -/
inductive Json where
  | null : Json
  | bool (b : Bool) : Json
  | num (q : ℚ) : Json
  | str (s : String) : Json
  | arr (xs : List Json) : Json
  | obj (fields : List (String × Json)) : Json

/-- Python exception classes relevant to the embedded code.  `AIClientError`
and its two subclasses are the typed errors of `app/ai_client.py`; the rest
are built-in Python / library exceptions.  Messages are elided. -/
inductive Exc where
  /-- Class `AIRateLimitError` (subclass of `AIClientError`). -/
  | aiRateLimitError : Exc
  /-- Class `AIQuotaExceededError` (subclass of `AIClientError`). -/
  | aiQuotaExceededError : Exc
  /-- Class `AIClientError` itself (the generic client error). -/
  | aiClientError : Exc
  /-- An `httpx` transport exception (`httpx.TimeoutException`,
  `httpx.ConnectError`, ...) — not a subclass of `AIClientError`. -/
  | httpTransportError : Exc
  /-- Python `KeyError`. -/
  | keyError : Exc
  /-- Python `IndexError`. -/
  | indexError : Exc
  /-- Python `TypeError`. -/
  | typeError : Exc
  /-- Python `ValueError` (raised unsubclassed, e.g. by `float(str)`). -/
  | valueError : Exc
  /-- Class `json.JSONDecodeError` (a subclass of `ValueError`). -/
  | jsonDecodeError : Exc
  /-- pydantic `ValidationError`. -/
  | validationError : Exc
deriving DecidableEq, Repr

/-- Whether an exception is an instance of `AIClientError` — exactly these are
caught by the `except AIClientError` clauses of `app/ai_recommender.py`. -/
def Exc.isAIClientError : Exc → Bool
  | .aiRateLimitError => true
  | .aiQuotaExceededError => true
  | .aiClientError => true
  | _ => false

/-- Numeric value of a list of decimal digit characters; `none` if any
character is not a digit.  (The empty list gives 0; emptiness is checked by
the callers where it matters.) -/
def digitsVal (cs : List Char) : Option Nat :=
  cs.foldl
    (fun acc c =>
      match acc with
      | none => none
      | some n => if c.isDigit then some (n * 10 + (c.toNat - 48)) else none)
    (some 0)

/-- Parse an unsigned decimal literal (digits with at most one decimal
point). -/
def parseUnsigned (cs : List Char) : Option ℚ :=
  match cs.span (fun c => c != '.') with
  | (intPart, []) =>
      if intPart.isEmpty then none
      else (digitsVal intPart).map fun n => (n : ℚ)
  | (intPart, _dot :: fracPart) =>
      if intPart.isEmpty && fracPart.isEmpty then none
      else if fracPart.any (fun c => c == '.') then none
      else
        match digitsVal intPart, digitsVal fracPart with
        | some a, some b => some ((a : ℚ) + (b : ℚ) / ((10 : ℚ) ^ fracPart.length))
        | _, _ => none

/-- Model of CPython `float(s)` on strings, for plain decimal literals with an
optional sign.  CPython additionally accepts exponents, `inf`/`nan`,
underscores and surrounding whitespace; none of those forms is needed
anywhere in this development — what matters is that non-numeric strings are
rejected (CPython raises `ValueError`). -/
def parsePyFloat (s : String) : Option ℚ :=
  match s.toList with
  | '-' :: rest => (parseUnsigned rest).map Neg.neg
  | '+' :: rest => parseUnsigned rest
  | cs => parseUnsigned cs

/-- Model of CPython `float(x)` applied to a value decoded by `json.loads`:
numbers and booleans convert, numeric strings parse, non-numeric strings
raise `ValueError`, and `None`/lists/objects raise `TypeError` (a `float()`
argument must be a string or a number). -/
def pyFloat : Json → Except Exc ℚ
  | .num q => .ok q
  | .bool b => .ok (if b then 1 else 0)
  | .str s =>
      match parsePyFloat s with
      | some q => .ok q
      | none => .error .valueError
  | .null => .error .typeError
  | .arr _ => .error .typeError
  | .obj _ => .error .typeError

/-- Model of `AIAnalysisResult` from `app/ai_models.py`. -/
structure AIAnalysisResult where
  original_data : String
  processed_data : String
  analysis : String
  confidence_score : ℚ
  processing_time : ℚ
  tokens_used : Nat
deriving DecidableEq, Repr

/-- Model of `AIProvider` from `app/ai_models.py` — the closed provider set (six
members). -/
inductive AIProvider where
  | openai : AIProvider
  | anthropic : AIProvider
  | cohere : AIProvider
  | huggingface : AIProvider
  | ollama : AIProvider
  | custom : AIProvider
deriving DecidableEq, Repr

/-- Model of `AIModelConfig` from `app/ai_models.py`.  The `custom_headers` /
`custom_params` mappings only feed outbound request payloads and are elided
(see the module docstring on payload shaping). -/
structure AIModelConfig where
  provider : AIProvider
  model_name : String
  api_key : Option String := none
  base_url : Option String := none
  temperature : ℚ := 7/10
  max_tokens : Nat := 1000
  timeout : Nat := 30
deriving DecidableEq, Repr

/-- Model of `AIProcessingConfig` from `app/ai_models.py` (the fields the engine
reads). -/
structure AIProcessingConfig where
  enabled : Bool
  batch_size : Nat := 10
deriving DecidableEq, Repr

/-- Model of `RecommendationConfig` from `app/ai_models.py` (the fields the engine
reads). -/
structure RecommendationConfig where
  ai_processing : AIProcessingConfig
  content_similarity_weight : ℚ := 6/10
  ai_enhancement_weight : ℚ := 4/10
deriving DecidableEq, Repr

/-- Model of `AIEnhancedRecommendationRequest` from `app/ai_models.py` (the fields the
engine reads; `custom_prompt` and `filters` are read nowhere). -/
structure AIEnhancedRecommendationRequest where
  user_id : String
  num_recommendations : Nat := 5
  user_preferences : Option String := none
  context : Option String := none
  ai_processing_enabled : Bool := true
deriving DecidableEq, Repr

/-- Model of `EnhancedProduct` from `app/ai_models.py`. -/
structure EnhancedProduct where
  id : String
  name : String
  description : Option String := none
  category : Option String := none
  price : Option ℚ := none
  rating : Option ℚ := none
  ai_analysis : Option AIAnalysisResult := none
  similarity_score : ℚ := 0
  ai_relevance_score : ℚ := 0
  combined_score : ℚ := 0
deriving DecidableEq, Repr

/-- Model of `EnhancedRecommendationResponse` from `app/ai_models.py`.  The
`processing_time` field (a wall-clock difference) is elided per the
module docstring. -/
structure EnhancedRecommendationResponse where
  user_id : String
  recommendations : List EnhancedProduct
  ai_processing_used : Bool
  explanation : Option String := none
deriving DecidableEq, Repr

/-! ## The AI provider clients (`app/ai_client.py`)

Each client's `process_data` posts a payload to the provider's endpoint and
handles the response.  Outbound payload shaping only feeds the HTTP
collaborator and cannot influence the value returned, so it is not modelled;
the network is modelled by an `HttpOutcome` argument.  `response.json()` is
assumed to yield a `Json` value (its own decode failure is orthogonal to
every claim). -/

/-- Outcome of one HTTP `post` through `httpx`: either a response with a
status code and a JSON body, or a transport-level exception
(`httpx.TimeoutException`, `httpx.ConnectError`, ...). -/
inductive HttpOutcome where
  | response (status : Nat) (body : Json) : HttpOutcome
  | transportError : HttpOutcome

/-- Library `httpx` counts a response as successful exactly when its status is 2xx;
`response.raise_for_status()` raises `httpx.HTTPStatusError` otherwise. -/
def httpSuccess (status : Nat) : Bool :=
  200 ≤ status && status < 300

/-- Python subscript `value[key]` on a decoded JSON value: `KeyError` on a
missing object key, `TypeError` when the value is not an object. -/
def Json.getKey : Json → String → Except Exc Json
  | .obj fields, k =>
      match fields.lookup k with
      | some v => .ok v
      | none => .error .keyError
  | _, _ => .error .typeError

/-- Python subscript `value[0]` on a decoded JSON value: `IndexError` on an
empty array, `KeyError` on an object (a missing dict key), `TypeError`
otherwise. -/
def Json.getFirst : Json → Except Exc Json
  | .arr [] => .error .indexError
  | .arr (x :: _) => .ok x
  | .obj _ => .error .keyError
  | _ => .error .typeError

/-- Python `value.get(key, default)` on a decoded JSON value; dict-only
(`AttributeError`, modelled as `TypeError`, on anything else). -/
def Json.getKeyD : Json → String → Json → Except Exc Json
  | .obj fields, k, d => .ok ((fields.lookup k).getD d)
  | _, _, _ => .error .typeError

/-- Read a provider-reported token count: JSON integers convert, anything
else counts as 0.  (The source stores whatever the provider sent into a
pydantic `int` field; provider token counts are integers, and no claim
depends on this field.) -/
def Json.asTokens : Json → Nat
  | .num q => q.num.toNat
  | _ => 0

/-- A decoded response fragment used as a pydantic `str` field: pydantic
raises `ValidationError` unless it is a string. -/
def Json.asPyStr : Json → Except Exc String
  | .str s => .ok s
  | _ => .error .validationError

/-- Extraction `result["choices"][0]["message"]["content"]` from the chat-completion
(OpenAI-style) response body. -/
def extractChatContent (body : Json) : Except Exc String := do
  let choices ← body.getKey "choices"
  let first ← choices.getFirst
  let message ← first.getKey "message"
  let content ← message.getKey "content"
  content.asPyStr

/-- Extraction `result.get("usage", {}).get("total_tokens", 0)` from the chat-completion
response body. -/
def chatTotalTokens (body : Json) : Except Exc Nat := do
  let usage ← body.getKeyD "usage" (.obj [])
  let t ← usage.getKeyD "total_tokens" (.num 0)
  pure t.asTokens

/-- Classification of an `httpx.HTTPStatusError` by the OpenAI and Anthropic
clients: 429 becomes `AIRateLimitError`, 402 becomes `AIQuotaExceededError`,
everything else the generic `AIClientError`. -/
def classifyHostedStatus (status : Nat) : Exc :=
  if status == 429 then .aiRateLimitError
  else if status == 402 then .aiQuotaExceededError
  else .aiClientError

/-- Model of `OpenAIClient.process_data`: post to the chat-completions endpoint,
translate a non-2xx status into a typed error, otherwise extract the first
choice's message content (extraction failures — `KeyError` etc. — are not
caught and propagate as-is). -/
def openaiProcessData (net : HttpOutcome) (data : String)
    (_system_prompt _user_prompt : Option String) :
    Except Exc AIAnalysisResult :=
  match net with
  | .transportError => .error .httpTransportError
  | .response status body =>
      if httpSuccess status then do
        let content ← extractChatContent body
        let tokens ← chatTotalTokens body
        pure { original_data := data
               processed_data := content
               analysis := content
               confidence_score := 8/10
               processing_time := 0
               tokens_used := tokens }
      else
        .error (classifyHostedStatus status)

/-- Extraction `result["content"][0]["text"]` from the messages-style (Anthropic)
response body. -/
def extractMessagesContent (body : Json) : Except Exc String := do
  let content ← body.getKey "content"
  let first ← content.getFirst
  let text ← first.getKey "text"
  text.asPyStr

/-- Extraction `usage.input_tokens + usage.output_tokens` (each defaulting to 0) from
the messages-style response body. -/
def messagesTokens (body : Json) : Except Exc Nat := do
  let usage₁ ← body.getKeyD "usage" (.obj [])
  let tin ← usage₁.getKeyD "input_tokens" (.num 0)
  let usage₂ ← body.getKeyD "usage" (.obj [])
  let tout ← usage₂.getKeyD "output_tokens" (.num 0)
  pure (tin.asTokens + tout.asTokens)

/-- Model of `AnthropicClient.process_data`: same status classification as the OpenAI
client, messages-style extraction. -/
def anthropicProcessData (net : HttpOutcome) (data : String)
    (_system_prompt _user_prompt : Option String) :
    Except Exc AIAnalysisResult :=
  match net with
  | .transportError => .error .httpTransportError
  | .response status body =>
      if httpSuccess status then do
        let content ← extractMessagesContent body
        let tokens ← messagesTokens body
        pure { original_data := data
               processed_data := content
               analysis := content
               confidence_score := 8/10
               processing_time := 0
               tokens_used := tokens }
      else
        .error (classifyHostedStatus status)

/-- Model of `OllamaClient.process_data`: every `httpx.HTTPStatusError` — whatever the
status code — becomes the generic `AIClientError`. -/
def ollamaProcessData (net : HttpOutcome) (data : String)
    (_system_prompt _user_prompt : Option String) :
    Except Exc AIAnalysisResult :=
  match net with
  | .transportError => .error .httpTransportError
  | .response status body =>
      if httpSuccess status then do
        let resp ← body.getKey "response"
        let content ← resp.asPyStr
        let pe ← body.getKeyD "prompt_eval_count" (.num 0)
        let ev ← body.getKeyD "eval_count" (.num 0)
        pure { original_data := data
               processed_data := content
               analysis := content
               confidence_score := 7/10
               processing_time := 0
               tokens_used := pe.asTokens + ev.asTokens }
      else
        .error .aiClientError

mutual

/-- Text rendering of a JSON value, modelling the `str(result)` fallback of
the custom client.  Quoting and spacing differ from CPython's `repr`; no
claim depends on the rendered text. -/
def jsonRender : Json → String
  | .null => "None"
  | .bool true => "True"
  | .bool false => "False"
  | .num q => toString q
  | .str s => s
  | .arr xs => "[" ++ jsonRenderList xs ++ "]"
  | .obj fs => "\x7b" ++ jsonRenderPairs fs ++ "\x7d"

/-- Comma-separated rendering of a JSON array's elements. -/
def jsonRenderList : List Json → String
  | [] => ""
  | [x] => jsonRender x
  | x :: y :: xs => jsonRender x ++ ", " ++ jsonRenderList (y :: xs)

/-- Comma-separated rendering of a JSON object's key/value pairs. -/
def jsonRenderPairs : List (String × Json) → String
  | [] => ""
  | [kv] => kv.1 ++ ": " ++ jsonRender kv.2
  | kv :: l :: ls => kv.1 ++ ": " ++ jsonRender kv.2 ++ ", " ++ jsonRenderPairs (l :: ls)

end

/-- Model of `CustomAPIClient.process_data`: every `httpx.HTTPStatusError` becomes the
generic `AIClientError`; on success the `response` field is used, falling
back to a string rendering of the whole body. -/
def customProcessData (net : HttpOutcome) (data : String)
    (_system_prompt _user_prompt : Option String) :
    Except Exc AIAnalysisResult :=
  match net with
  | .transportError => .error .httpTransportError
  | .response status body =>
      if httpSuccess status then do
        let resp ← body.getKeyD "response" (.str (jsonRender body))
        let content ← resp.asPyStr
        let tu ← body.getKeyD "tokens_used" (.num 0)
        pure { original_data := data
               processed_data := content
               analysis := content
               confidence_score := 7/10
               processing_time := 0
               tokens_used := tu.asTokens }
      else
        .error .aiClientError

/-- The four concrete client classes the factory can instantiate. -/
inductive ClientKind where
  | openaiClient : ClientKind
  | anthropicClient : ClientKind
  | ollamaClient : ClientKind
  | customClient : ClientKind
deriving DecidableEq, Repr

/-- Model of `create_ai_client` from `app/ai_client.py`: dispatch on
`config.provider`, raising `ValueError` for any provider without a branch
(construction performs no network I/O — `httpx.AsyncClient(...)` opens no
connection). -/
def create_ai_client (config : AIModelConfig) : Except Exc ClientKind :=
  if config.provider = .openai then .ok .openaiClient
  else if config.provider = .anthropic then .ok .anthropicClient
  else if config.provider = .ollama then .ok .ollamaClient
  else if config.provider = .custom then .ok .customClient
  else .error .valueError

/-- Whether a client's runtime type is the one the requested provider calls
for. -/
def clientMatchesProvider : ClientKind → AIProvider → Bool
  | .openaiClient, .openai => true
  | .anthropicClient, .anthropic => true
  | .ollamaClient, .ollama => true
  | .customClient, .custom => true
  | _, _ => false

/-- Model of `user_prompt_template.format(data=data)`: the template has a single named
placeholder for the item, so it is modelled as the text before and after the
placeholder; formatting splices the item in between. -/
def formatTemplate : Option (String × String) → String → Option String
  | none, _ => none
  | some (pre, post), data => some (pre ++ data ++ post)

/-- Model of `batch_process` (identical control flow in all four clients): iterate the
input list in order, formatting the per-item user prompt from the template
when one is given, and append each `process_data` result.  A failing item
aborts the loop and the exception propagates (there is no `try` here).  The
inter-call `asyncio.sleep` pacing affects timing only and is elided.  The
per-call behaviour is abstracted as the `proc` argument
(`data ↦ user_prompt ↦ result`, with the system prompt fixed by the
caller). -/
def batch_process (proc : String → Option String → Except Exc AIAnalysisResult)
    (data_list : List String) (tmpl : Option (String × String)) :
    Except Exc (List AIAnalysisResult) :=
  match data_list with
  | [] => .ok []
  | d :: ds =>
      match proc d (formatTemplate tmpl d) with
      | .error e => .error e
      | .ok r =>
          match batch_process proc ds tmpl with
          | .error e => .error e
          | .ok rs => .ok (r :: rs)

/-! ## The recommendation engine (`app/ai_recommender.py`)

`AIEnhancedRecommender.get_recommendations` and its helpers.  The engine's
AI client is abstracted as a call function
`proc : data → system_prompt → Except Exc AIAnalysisResult`
(every engine call passes `system_prompt` by keyword and leaves
`user_prompt` as `None`); the `json` library as
`loads : String → Except Exc Json`; and the `pandas`/`sklearn`
candidate-selection machinery of `_get_content_recommendations` (random
sample or top-`3×n` by cosine similarity) as
`retrieve : Option String → List of product rows`, a function of the only
pipeline-produced input it reads, the optional AI user profile. -/

/-- Python truthiness of an `Optional[str]`: `None` and the empty string are
falsy. -/
def pyTruthy : Option String → Bool
  | none => false
  | some s => !s.isEmpty

/-- The f-string fallback `value or "None"` used when building prompts. -/
def orNoneStr (o : Option String) : String :=
  match o with
  | some s => if s.isEmpty then "None" else s
  | none => "None"

/-- The profile text built by `_generate_user_profile`. -/
def profileData (request : AIEnhancedRecommendationRequest) : String :=
  "User preferences: " ++ orNoneStr request.user_preferences ++ " " ++
  "Context: " ++ orNoneStr request.context

/-- The system prompt of `_generate_user_profile`. -/
def profileSystemPrompt : String :=
  "You are a user profiling expert. Based on the given user " ++
  "preferences and context, create a detailed user profile for " ++
  "product recommendations. Include interests, style preferences, " ++
  "budget considerations, and shopping behavior patterns."

/-- Model of `AIEnhancedRecommender._generate_user_profile`: skip when neither
preferences nor context is truthy; otherwise one AI call whose
`AIClientError` failures are caught and degrade the profile to `None`
(any other exception propagates). -/
def generateUserProfile
    (proc : String → String → Except Exc AIAnalysisResult)
    (request : AIEnhancedRecommendationRequest) :
    Except Exc (Option String) :=
  if !pyTruthy request.user_preferences && !pyTruthy request.context then
    .ok none
  else
    match proc (profileData request) profileSystemPrompt with
    | .ok result => .ok (some result.processed_data)
    | .error e => if e.isAIClientError then .ok none else .error e

/-- A row of the product table, as selected by the sampling / cosine-ranking
step of `_get_content_recommendations` (that selection lives in
`pandas`/`sklearn` and is abstracted as the `retrieve` argument of the
engine). -/
structure ProductRow where
  id : String
  name : String
  description : Option String := none
  category : Option String := none
  price : Option ℚ := none
  rating : Option ℚ := none
deriving DecidableEq, Repr

/-- The `EnhancedProduct` construction of `_get_content_recommendations`:
every score starts at 0.0 ("will be set later"), and no similarity value
from the retrieval stage is carried over. -/
def rowToEnhancedProduct (row : ProductRow) : EnhancedProduct :=
  { id := row.id
    name := row.name
    description := row.description
    category := row.category
    price := row.price
    rating := row.rating
    similarity_score := 0
    ai_relevance_score := 0
    combined_score := 0 }

/-- Model of `AIEnhancedRecommender._get_content_recommendations`: select candidate
rows (abstracted `retrieve`, fed the optional AI user profile) and convert
each to an `EnhancedProduct` with all three scores 0.0. -/
def getContentRecommendations
    (retrieve : Option String → List ProductRow)
    (user_profile : Option String) : List EnhancedProduct :=
  (retrieve user_profile).map rowToEnhancedProduct

/-- The f-string fallback `prod.description or "No description"`. -/
def descOr (o : Option String) : String :=
  match o with
  | some s => if s.isEmpty then "No description" else s
  | none => "No description"

/-- The f-string fallback `prod.category or "Unknown"`. -/
def catOr (o : Option String) : String :=
  match o with
  | some s => if s.isEmpty then "Unknown" else s
  | none => "Unknown"

/-- The numbered candidate list sent to the AI by
`_ai_score_recommendations`. -/
def productsText (recommendations : List EnhancedProduct) : String :=
  String.intercalate "\n"
    (recommendations.enum.map fun ip =>
      toString (ip.1 + 1) ++ ". " ++ ip.2.name ++ " - " ++
      descOr ip.2.description ++ " (Category: " ++ catOr ip.2.category ++ ")")

/-- The scoring system prompt of `_ai_score_recommendations`. -/
def scoringPrompt (request : AIEnhancedRecommendationRequest)
    (user_profile : Option String) : String :=
  "User ID: " ++ request.user_id ++ "\n" ++
  "User Preferences: " ++ orNoneStr request.user_preferences ++ "\n" ++
  "Context: " ++ orNoneStr request.context ++ "\n" ++
  "User Profile: " ++ orNoneStr user_profile ++ "\n\n" ++
  "Rate how relevant each product is for this user on a scale " ++
  "of 0.0 to 1.0. Consider user preferences, context, and the " ++
  "product characteristics. Return only a JSON array of scores."

/-- The score/fusion assignment for one candidate (`ai_recommender.py`
lines 318–323): store the AI relevance score, then recompute
`combined_score = content_similarity_weight * similarity_score
+ ai_enhancement_weight * ai_relevance_score`. -/
def updateScore (config : RecommendationConfig) (p : EnhancedProduct)
    (score : ℚ) : EnhancedProduct :=
  { p with
    ai_relevance_score := score
    combined_score :=
      config.content_similarity_weight * p.similarity_score +
      config.ai_enhancement_weight * score }

/-- The `for i, score in enumerate(scores)` loop of
`_ai_score_recommendations`: candidates are updated in place one at a time;
a failing `float(score)` aborts the loop, leaving the candidates already
visited updated and the rest untouched, and hands the exception to the
enclosing `try`.  Returns the (possibly partially) updated list together
with the exception, if one was raised. -/
def applyScores (config : RecommendationConfig) :
    List EnhancedProduct → List Json → List EnhancedProduct × Option Exc
  | recs, [] => (recs, none)
  | [], _ :: _ => ([], none)
  | r :: rs, s :: ss =>
      match pyFloat s with
      | .error e => (r :: rs, some e)
      | .ok q =>
          let rest := applyScores config rs ss
          (updateScore config r q :: rest.1, rest.2)

/-- Exceptions caught by the inner
`except (json.JSONDecodeError, ValueError, IndexError)` of
`_ai_score_recommendations` (`json.JSONDecodeError` is itself a `ValueError`
subclass). -/
def caughtByScoreParse : Exc → Bool
  | .jsonDecodeError => true
  | .valueError => true
  | .indexError => true
  | _ => false

/-- Model of `recommendations.sort(key=lambda x: x.combined_score, reverse=True)`:
Python's stable sort, descending by combined score (ties keep their prior
relative order). -/
def sortByCombinedDesc (recommendations : List EnhancedProduct) :
    List EnhancedProduct :=
  recommendations.mergeSort fun a b =>
    decide (b.combined_score ≤ a.combined_score)

/-- Model of `AIEnhancedRecommender._ai_score_recommendations`, given the result of
the `process_data` call on the candidate text (`procResult`): decode the
response, and if it is a JSON array whose length equals the candidate count,
run the assignment loop.  `AIClientError`s from the call and
decode/`ValueError`/`IndexError` failures are caught (the request survives,
scores keep whatever values the loop reached); any other exception
propagates.  Finally the candidate list is sorted by combined score,
descending. -/
def aiScoreRecommendations (config : RecommendationConfig)
    (loads : String → Except Exc Json)
    (procResult : Except Exc AIAnalysisResult)
    (recommendations : List EnhancedProduct) :
    Except Exc (List EnhancedProduct) :=
  let afterTry : List EnhancedProduct × Option Exc :=
    match procResult with
    | .error e =>
        if e.isAIClientError then (recommendations, none)
        else (recommendations, some e)
    | .ok result =>
        match loads result.processed_data with
        | .error e =>
            if caughtByScoreParse e then (recommendations, none)
            else (recommendations, some e)
        | .ok scores =>
            match scores with
            | .arr xs =>
                if xs.length = recommendations.length then
                  let step := applyScores config recommendations xs
                  match step.2 with
                  | none => (step.1, none)
                  | some e =>
                      if caughtByScoreParse e then (step.1, none)
                      else (step.1, some e)
                else (recommendations, none)
            | _ => (recommendations, none)
  match afterTry with
  | (recs, none) => .ok (sortByCombinedDesc recs)
  | (_, some e) => .error e

/-- The product list sent to the AI by `_generate_explanation` (top 3
post-sort candidates). -/
def explanationProductsText (top_products : List EnhancedProduct) : String :=
  String.intercalate "\n"
    (top_products.map fun prod =>
      "- " ++ prod.name ++ ": " ++ descOr prod.description)

/-- The system prompt of `_generate_explanation`. -/
def explanationPrompt (request : AIEnhancedRecommendationRequest) : String :=
  "Explain why these products were recommended for user " ++
  request.user_id ++ " based on their preferences: " ++
  (match request.user_preferences with
   | some s => if s.isEmpty then "general interests" else s
   | none => "general interests") ++
  " and context: " ++
  (match request.context with
   | some s => if s.isEmpty then "general shopping" else s
   | none => "general shopping") ++
  ". Keep it concise and helpful."

/-- Model of `AIEnhancedRecommender._generate_explanation`: one AI call on the top 3
candidates; `AIClientError` failures are caught and degrade the explanation
to `None` (any other exception propagates). -/
def generateExplanation
    (proc : String → String → Except Exc AIAnalysisResult)
    (recommendations : List EnhancedProduct)
    (request : AIEnhancedRecommendationRequest) :
    Except Exc (Option String) :=
  match proc (explanationProductsText (recommendations.take 3))
             (explanationPrompt request) with
  | .ok result => .ok (some result.processed_data)
  | .error e => if e.isAIClientError then .ok none else .error e

/-- Model of `AIEnhancedRecommender.get_recommendations`: the async entry point.
`hasClient` is the truthiness of `self.ai_client`; the triple guard
`request.ai_processing_enabled and self.config.ai_processing.enabled and
self.ai_client` gates the three AI sub-steps, while the response's
`ai_processing_used` flag is only the two-way conjunction (the source omits
the client check there). -/
def get_recommendations (config : RecommendationConfig) (hasClient : Bool)
    (proc : String → String → Except Exc AIAnalysisResult)
    (loads : String → Except Exc Json)
    (retrieve : Option String → List ProductRow)
    (request : AIEnhancedRecommendationRequest) :
    Except Exc EnhancedRecommendationResponse :=
  let aiOn := request.ai_processing_enabled &&
              config.ai_processing.enabled && hasClient
  let profileStep : Except Exc (Option String) :=
    if aiOn then generateUserProfile proc request else .ok none
  match profileStep with
  | .error e => .error e
  | .ok user_profile =>
      let content := getContentRecommendations retrieve user_profile
      let scoreStep : Except Exc (List EnhancedProduct) :=
        if aiOn then
          aiScoreRecommendations config loads
            (proc (productsText content) (scoringPrompt request user_profile))
            content
        else .ok content
      match scoreStep with
      | .error e => .error e
      | .ok enhanced =>
          let explanationStep : Except Exc (Option String) :=
            if aiOn then generateExplanation proc enhanced request
            else .ok none
          match explanationStep with
          | .error e => .error e
          | .ok explanation =>
              .ok { user_id := request.user_id
                    recommendations :=
                      enhanced.take request.num_recommendations
                    ai_processing_used :=
                      request.ai_processing_enabled &&
                      config.ai_processing.enabled
                    explanation := explanation }

/-! ## The circuit breaker (`app/exceptions.py`) -/

/-- The three circuit-breaker states. -/
inductive CBState where
  | closed : CBState
  | isOpen : CBState
  | halfOpen : CBState
deriving DecidableEq, Repr

/-- Model of `CircuitBreaker` from `app/exceptions.py`: the configured threshold and
recovery timeout together with its mutable fields.  `time.time()` readings
are modelled as explicit `now : ℚ` arguments. -/
structure CircuitBreaker where
  failure_threshold : Nat
  recovery_timeout : ℚ
  failure_count : Nat := 0
  last_failure_time : Option ℚ := none
  state : CBState := .closed
deriving DecidableEq, Repr

/-- Model of `CircuitBreaker.is_available`: `CLOSED` and `HALF_OPEN` report available;
`OPEN` reports available — moving to `HALF_OPEN` — once strictly more than
the recovery timeout has passed since the last failure, and unavailable
before that.  (In the `OPEN` state with no recorded failure time the source
would raise a `TypeError` subtracting `None`; that state is unreachable
through the class's own methods.)  Returns the availability verdict together
with the possibly updated breaker. -/
def CircuitBreaker.is_available (cb : CircuitBreaker) (now : ℚ) :
    Except Exc (Bool × CircuitBreaker) :=
  match cb.state with
  | .closed => .ok (true, cb)
  | .isOpen =>
      match cb.last_failure_time with
      | none => .error .typeError
      | some t =>
          if cb.recovery_timeout < now - t then
            .ok (true, { cb with state := .halfOpen })
          else
            .ok (false, cb)
  | .halfOpen => .ok (true, cb)

/-- Model of `CircuitBreaker.record_success`: reset the failure count and close the
breaker. -/
def CircuitBreaker.record_success (cb : CircuitBreaker) : CircuitBreaker :=
  { cb with failure_count := 0, state := .closed }

/-- Model of `CircuitBreaker.record_failure`: bump the failure count, stamp the
failure time, and open the breaker once the count reaches the threshold. -/
def CircuitBreaker.record_failure (cb : CircuitBreaker) (now : ℚ) :
    CircuitBreaker :=
  let cb' := { cb with
               failure_count := cb.failure_count + 1
               last_failure_time := some now }
  if cb'.failure_threshold ≤ cb'.failure_count then
    { cb' with state := .isOpen }
  else
    cb'

/-! ## Theorems -/

/-- C2: given two candidates with similarity scores 0.5 and 0.5, fusion
weights 0.6/0.4, and the scoring response decoding to the JSON array
`[0.9, 0.2]`, the re-scoring step assigns AI relevance scores 0.9 and 0.2,
computes the combined scores by the weighted-fusion formula — 0.66 and
0.38 — and returns the candidates sorted descending by combined score, the
first before the second. -/
theorem c2_scoring_fusion_scenario :
    aiScoreRecommendations
      { ai_processing := { enabled := true }
        content_similarity_weight := 0.6
        ai_enhancement_weight := 0.4 }
      (fun s => if s = "[0.9, 0.2]" then
          .ok (.arr [.num 0.9, .num 0.2]) else .error .jsonDecodeError)
      (.ok { original_data := "", processed_data := "[0.9, 0.2]",
             analysis := "", confidence_score := 0.8,
             processing_time := 0, tokens_used := 0 })
      [{ id := "1", name := "A", similarity_score := 0.5 },
       { id := "2", name := "B", similarity_score := 0.5 }] =
    .ok [{ id := "1", name := "A", similarity_score := 0.5,
           ai_relevance_score := 0.9, combined_score := 0.66 },
         { id := "2", name := "B", similarity_score := 0.5,
           ai_relevance_score := 0.2, combined_score := 0.38 }] ∧
    (0.66 : ℚ) = 0.6 * 0.5 + 0.4 * 0.9 ∧
    (0.38 : ℚ) = 0.6 * 0.5 + 0.4 * 0.2 := by
  refine ⟨?_, by norm_num, by norm_num⟩
  simp only [aiScoreRecommendations, applyScores, pyFloat, updateScore,
    sortByCombinedDesc, reduceIte, List.length_cons, List.length_nil]
  rw [List.mergeSort_of_sorted (by
    simp only [List.pairwise_cons, List.pairwise_singleton,
      List.mem_singleton, List.not_mem_nil, decide_eq_true_eq]
    norm_num)]
  norm_num

/-- C3 counterexample: `cohere` is a member of the closed provider set
(`AIProvider`), and a `ModelConfig` carrying it is valid, yet the factory
does not return a cohere client — it raises `ValueError`.  (Likewise
`huggingface`.) -/
theorem c3_factory_counterexample :
    create_ai_client { provider := .cohere, model_name := "command" } =
      .error .valueError ∧
    create_ai_client { provider := .huggingface, model_name := "bloom" } =
      .error .valueError := by
  decide

/-- C3 (amended): for the four providers with a factory branch — `openai`,
`anthropic`, `ollama`, `custom` — `create_ai_client` returns a client whose
runtime type matches the requested provider; for the two remaining members
of the closed provider set, `cohere` and `huggingface`, it raises
`ValueError` at construction time, before any network call (construction
performs no I/O). -/
theorem c3_factory_dispatch (config : AIModelConfig) :
    match create_ai_client config with
    | .ok kind => clientMatchesProvider kind config.provider = true
    | .error e =>
        (config.provider = .cohere ∨ config.provider = .huggingface) ∧
        e = .valueError := by
  cases h : config.provider <;>
    simp [create_ai_client, clientMatchesProvider, h]

/-- C4 counterexample: the local-generation (Ollama) and custom clients
classify an HTTP 429 response as the generic `AIClientError`, not as the
typed rate-limit error. -/
theorem c4_429_counterexample :
    ollamaProcessData (.response 429 .null) "data" none none =
      .error .aiClientError ∧
    customProcessData (.response 429 .null) "data" none none =
      .error .aiClientError ∧
    Exc.aiClientError ≠ Exc.aiRateLimitError := by
  decide

/-- C4 (amended): on an HTTP 429 response the chat-completion (OpenAI) and
messages (Anthropic) clients raise the typed rate-limit error, while the
local-generation (Ollama) and custom clients raise the generic client
error. -/
theorem c4_429_classification (body : Json) (data : String)
    (sp up : Option String) :
    openaiProcessData (.response 429 body) data sp up =
      .error .aiRateLimitError ∧
    anthropicProcessData (.response 429 body) data sp up =
      .error .aiRateLimitError ∧
    ollamaProcessData (.response 429 body) data sp up =
      .error .aiClientError ∧
    customProcessData (.response 429 body) data sp up =
      .error .aiClientError := by
  simp [openaiProcessData, anthropicProcessData, ollamaProcessData,
    customProcessData, httpSuccess, classifyHostedStatus]

/-- C7: when AI processing is disabled in the engine configuration, the
returned response has `ai_processing_used = false` and no explanation —
regardless of the request's opt-in flag (and of everything else). -/
theorem c7_config_disabled (config : RecommendationConfig) (hasClient : Bool)
    (proc : String → String → Except Exc AIAnalysisResult)
    (loads : String → Except Exc Json)
    (retrieve : Option String → List ProductRow)
    (request : AIEnhancedRecommendationRequest)
    (h : config.ai_processing.enabled = false) :
    get_recommendations config hasClient proc loads retrieve request =
      .ok { user_id := request.user_id
            recommendations :=
              (getContentRecommendations retrieve none).take
                request.num_recommendations
            ai_processing_used := false
            explanation := none } := by
  simp [get_recommendations, h]

/-- Witness for C7 at a concrete disabled configuration and an opted-in
request. -/
theorem c7_config_disabled_witness :
    get_recommendations
      { ai_processing := { enabled := false } } true
      (fun _ _ => .error .aiClientError)
      (fun _ => .error .jsonDecodeError)
      (fun _ => [{ id := "1", name := "A" }])
      { user_id := "u1", ai_processing_enabled := true } =
    .ok { user_id := "u1"
          recommendations :=
            (getContentRecommendations
              (fun _ => [{ id := "1", name := "A" }]) none).take 5
          ai_processing_used := false
          explanation := none } :=
  c7_config_disabled _ _ _ _ _ _ rfl

/-- C1 counterexample: a network timeout during the profile-generation AI
call (an `httpx` transport failure, which the OpenAI client does not wrap
into `AIClientError`) propagates out of `get_recommendations` — the request
hard-fails even though only the AI provider call failed. -/
theorem c1_timeout_counterexample :
    get_recommendations
      { ai_processing := { enabled := true } } true
      (fun d s => openaiProcessData .transportError d (some s) none)
      (fun _ => .error .jsonDecodeError)
      (fun _ => [])
      { user_id := "u1", user_preferences := some "books" } =
    .error .httpTransportError := by
  decide

/-- C10 counterexample: a scoring response decoding to a JSON array of the
right length whose second entry is `null` makes `float(score)` raise
`TypeError` — which the `except (json.JSONDecodeError, ValueError,
IndexError)` clause does not catch — so the re-scoring step raises after
updating the first candidate, contradicting the claim that it never
raises. -/
theorem c10_null_entry_counterexample :
    aiScoreRecommendations
      { ai_processing := { enabled := true } }
      (fun s => if s = "[0.5, null]" then
          .ok (.arr [.num 0.5, .null]) else .error .jsonDecodeError)
      (.ok { original_data := "", processed_data := "[0.5, null]",
             analysis := "", confidence_score := 0.8,
             processing_time := 0, tokens_used := 0 })
      [{ id := "1", name := "A" }, { id := "2", name := "B" }] =
    .error .typeError := by
  decide

/-- C8 counterexample: after the recovery timeout moves the breaker from
`OPEN` to `HALF_OPEN`, every further availability check also succeeds with
no state change — the breaker does not limit `HALF_OPEN` to exactly one
trial call. -/
theorem c8_half_open_counterexample :
    CircuitBreaker.is_available
      { failure_threshold := 5, recovery_timeout := 60, failure_count := 5,
        last_failure_time := some 0, state := .isOpen } 100 =
      .ok (true,
        { failure_threshold := 5, recovery_timeout := 60, failure_count := 5,
          last_failure_time := some 0, state := .halfOpen }) ∧
    CircuitBreaker.is_available
      { failure_threshold := 5, recovery_timeout := 60, failure_count := 5,
        last_failure_time := some 0, state := .halfOpen } 100 =
      .ok (true,
        { failure_threshold := 5, recovery_timeout := 60, failure_count := 5,
          last_failure_time := some 0, state := .halfOpen }) ∧
    CircuitBreaker.is_available
      { failure_threshold := 5, recovery_timeout := 60, failure_count := 5,
        last_failure_time := some 0, state := .halfOpen } 101 =
      .ok (true,
        { failure_threshold := 5, recovery_timeout := 60, failure_count := 5,
          last_failure_time := some 0, state := .halfOpen }) := by
  refine ⟨?_, rfl, rfl⟩
  simp only [CircuitBreaker.is_available]
  rw [if_pos (by norm_num)]

/-- C5: whenever `batch_process` returns (it propagates any per-item
failure), it returns exactly one result per input, in input order, and the
i-th result is the `process_data` result for the i-th input with the
user-prompt template substitution applied to that input. -/
theorem c5_batch_order
    (proc : String → Option String → Except Exc AIAnalysisResult)
    (data_list : List String) (tmpl : Option (String × String))
    (results : List AIAnalysisResult)
    (h : batch_process proc data_list tmpl = .ok results) :
    results.length = data_list.length ∧
    ∀ (i : Nat) (d : String), data_list[i]? = some d →
      ∃ r, results[i]? = some r ∧ proc d (formatTemplate tmpl d) = .ok r := by
  induction data_list generalizing results with
  | nil =>
      simp only [batch_process, Except.ok.injEq] at h
      subst h
      simp
  | cons d ds ih =>
      simp only [batch_process] at h
      cases hp : proc d (formatTemplate tmpl d) with
      | error e => rw [hp] at h; exact absurd h (by simp)
      | ok r =>
          rw [hp] at h
          cases hb : batch_process proc ds tmpl with
          | error e => rw [hb] at h; exact absurd h (by simp)
          | ok rs =>
              rw [hb] at h
              simp only [Except.ok.injEq] at h
              subst h
              obtain ⟨hlen, hidx⟩ := ih rs hb
              refine ⟨by simp [hlen], ?_⟩
              intro i x hx
              match i with
              | 0 =>
                  simp only [List.getElem?_cons_zero, Option.some.injEq] at hx
                  subst hx
                  exact ⟨r, by simp, hp⟩
              | i + 1 =>
                  simp only [List.getElem?_cons_succ] at hx ⊢
                  exact hidx i x hx

/-- Witness for C5: a two-item batch with a template, run against a client
whose calls all succeed, returns exactly two results. -/
theorem c5_batch_order_witness :
    ([{ original_data := "a", processed_data := "pre a post",
        analysis := "", confidence_score := 0, processing_time := 0,
        tokens_used := 0 },
      { original_data := "b", processed_data := "pre b post",
        analysis := "", confidence_score := 0, processing_time := 0,
        tokens_used := 0 }] : List AIAnalysisResult).length =
      (["a", "b"] : List String).length :=
  (c5_batch_order
    (fun d up =>
      (Except.ok
        { original_data := d, processed_data := up.getD d,
          analysis := "", confidence_score := 0, processing_time := 0,
          tokens_used := 0 } : Except Exc AIAnalysisResult))
    ["a", "b"] (some ("pre ", " post")) _ rfl).1

/-- C6: when the scoring response decodes to a JSON array whose length
differs from the candidate count, the re-scoring step does not raise and
leaves every candidate untouched — the returned list is exactly the
(stable) re-sort of the unmodified candidates, a permutation of the input
list. -/
theorem c6_length_mismatch (config : RecommendationConfig)
    (loads : String → Except Exc Json) (result : AIAnalysisResult)
    (xs : List Json) (recommendations : List EnhancedProduct)
    (hload : loads result.processed_data = .ok (.arr xs))
    (hlen : xs.length ≠ recommendations.length) :
    aiScoreRecommendations config loads (.ok result) recommendations =
      .ok (sortByCombinedDesc recommendations) ∧
    (sortByCombinedDesc recommendations).Perm recommendations := by
  constructor
  · simp only [aiScoreRecommendations, hload]
    rw [if_neg hlen]
  · exact List.mergeSort_perm recommendations _

/-- Witness for C6: one candidate, an empty scores array. -/
theorem c6_length_mismatch_witness :
    aiScoreRecommendations
      { ai_processing := { enabled := true } }
      (fun s => if s = "[]" then .ok (.arr []) else .error .jsonDecodeError)
      (.ok { original_data := "", processed_data := "[]", analysis := "",
             confidence_score := 0, processing_time := 0, tokens_used := 0 })
      [{ id := "1", name := "A" }] =
      .ok (sortByCombinedDesc [{ id := "1", name := "A" }]) ∧
    (sortByCombinedDesc [{ id := "1", name := "A" }]).Perm
      [{ id := "1", name := "A" }] :=
  c6_length_mismatch _ _ _ [] _ rfl (by decide)

/-- C8 (amended): the breaker opens once the failure count reaches the
threshold; while `OPEN` it rejects every call until the recovery timeout has
elapsed since the last failure, then reports available and moves to
`HALF_OPEN`; in `HALF_OPEN` every availability check succeeds (trial calls
are not limited to one); a recorded success resets the breaker to `CLOSED`
with a zero failure count, and a recorded failure in `HALF_OPEN` (the count
having already reached the threshold when the breaker opened) returns it to
`OPEN`. -/
theorem c8_circuit_breaker_contract (cb : CircuitBreaker) (now t : ℚ) :
    (cb.failure_threshold ≤ cb.failure_count + 1 →
      (cb.record_failure now).state = .isOpen) ∧
    (cb.state = .isOpen → cb.last_failure_time = some t →
      now - t ≤ cb.recovery_timeout →
      cb.is_available now = .ok (false, cb)) ∧
    (cb.state = .isOpen → cb.last_failure_time = some t →
      cb.recovery_timeout < now - t →
      cb.is_available now = .ok (true, { cb with state := .halfOpen })) ∧
    (cb.state = .halfOpen → cb.is_available now = .ok (true, cb)) ∧
    (cb.record_success.state = .closed ∧
      cb.record_success.failure_count = 0) ∧
    (cb.state = .halfOpen → cb.failure_threshold ≤ cb.failure_count + 1 →
      (cb.record_failure now).state = .isOpen) := by
  refine ⟨?_, ?_, ?_, ?_, ⟨rfl, rfl⟩, ?_⟩
  · intro h
    simp only [CircuitBreaker.record_failure]
    rw [if_pos h]
  · intro hs hl hnow
    simp only [CircuitBreaker.is_available, hs, hl]
    rw [if_neg (not_lt.mpr hnow)]
  · intro hs hl hnow
    simp only [CircuitBreaker.is_available, hs, hl]
    rw [if_pos hnow]
  · intro hs
    simp only [CircuitBreaker.is_available, hs]
  · intro _ h
    simp only [CircuitBreaker.record_failure]
    rw [if_pos h]

/-- Witness for C8 (amended), discharging each hypothesis at concrete
breaker states: a fifth failure opens a breaker with threshold 5; an open
breaker rejects at 30s and admits (moving to `HALF_OPEN`) at 100s with a
60s timeout; a half-open breaker reports available; a half-open failure
reopens. -/
theorem c8_circuit_breaker_contract_witness :
    (CircuitBreaker.record_failure
      { failure_threshold := 5, recovery_timeout := 60, failure_count := 4,
        last_failure_time := some 0, state := .closed } 7).state = .isOpen ∧
    CircuitBreaker.is_available
      { failure_threshold := 5, recovery_timeout := 60, failure_count := 5,
        last_failure_time := some 0, state := .isOpen } 30 =
      .ok (false,
        { failure_threshold := 5, recovery_timeout := 60, failure_count := 5,
          last_failure_time := some 0, state := .isOpen }) ∧
    CircuitBreaker.is_available
      { failure_threshold := 5, recovery_timeout := 60, failure_count := 5,
        last_failure_time := some 0, state := .isOpen } 100 =
      .ok (true,
        { failure_threshold := 5, recovery_timeout := 60, failure_count := 5,
          last_failure_time := some 0, state := .halfOpen }) ∧
    CircuitBreaker.is_available
      { failure_threshold := 5, recovery_timeout := 60, failure_count := 5,
        last_failure_time := some 0, state := .halfOpen } 100 =
      .ok (true,
        { failure_threshold := 5, recovery_timeout := 60, failure_count := 5,
          last_failure_time := some 0, state := .halfOpen }) ∧
    (CircuitBreaker.record_success
      { failure_threshold := 5, recovery_timeout := 60, failure_count := 5,
        last_failure_time := some 0, state := .halfOpen }).state = .closed ∧
    (CircuitBreaker.record_failure
      { failure_threshold := 5, recovery_timeout := 60, failure_count := 5,
        last_failure_time := some 0, state := .halfOpen } 200).state =
      .isOpen := by
  refine ⟨?_, ?_, ?_, ?_, ?_, ?_⟩
  · exact (c8_circuit_breaker_contract _ 7 0).1 (by norm_num)
  · exact (c8_circuit_breaker_contract _ 30 0).2.1 rfl rfl (by norm_num)
  · exact (c8_circuit_breaker_contract _ 100 0).2.2.1 rfl rfl (by norm_num)
  · exact (c8_circuit_breaker_contract _ 100 0).2.2.2.1 rfl
  · exact (c8_circuit_breaker_contract _ 0 0).2.2.2.2.1.1
  · exact (c8_circuit_breaker_contract _ 200 0).2.2.2.2.2 rfl (by norm_num)

/-- Helper: the score-assignment loop preserves the invariant "similarity
score 0 and combined score = AI weight × AI relevance score" — an updated
candidate gets `combined = w_sim * 0 + w_ai * q`, an untouched candidate
keeps it by assumption. -/
theorem mem_applyScores_inv (config : RecommendationConfig) :
    ∀ (recs : List EnhancedProduct) (xs : List Json),
      (∀ p ∈ recs, p.similarity_score = 0 ∧
        p.combined_score =
          config.ai_enhancement_weight * p.ai_relevance_score) →
      ∀ p ∈ (applyScores config recs xs).1,
        p.similarity_score = 0 ∧
        p.combined_score =
          config.ai_enhancement_weight * p.ai_relevance_score := by
  intro recs
  induction recs with
  | nil => intro xs _ p hp; cases xs <;> simp [applyScores] at hp
  | cons r rs ih =>
      intro xs hrec p hp
      cases xs with
      | nil => exact hrec p hp
      | cons x xt =>
          simp only [applyScores] at hp
          cases hx : pyFloat x with
          | error e => rw [hx] at hp; exact hrec p hp
          | ok q =>
              rw [hx] at hp
              simp only [List.mem_cons] at hp
              rcases hp with hp | hp
              · subst hp
                obtain ⟨hsim, _⟩ := hrec r (by simp)
                refine ⟨hsim, ?_⟩
                simp [updateScore, hsim]
              · exact ih xt (fun p hp => hrec p (by simp [hp])) p hp

/-- Helper: when the re-scoring step returns a candidate list, every member
of it satisfies the invariant "similarity score 0 and combined score = AI
weight × AI relevance score", provided every input candidate did. -/
theorem mem_aiScore_inv (config : RecommendationConfig)
    (loads : String → Except Exc Json)
    (procResult : Except Exc AIAnalysisResult)
    (recs out : List EnhancedProduct)
    (h : aiScoreRecommendations config loads procResult recs = .ok out)
    (hrec : ∀ p ∈ recs, p.similarity_score = 0 ∧
      p.combined_score =
        config.ai_enhancement_weight * p.ai_relevance_score) :
    ∀ p ∈ out, p.similarity_score = 0 ∧
      p.combined_score =
        config.ai_enhancement_weight * p.ai_relevance_score := by
  intro p hp
  simp only [aiScoreRecommendations] at h
  split at h
  case _ recs' heq =>
    simp only [Except.ok.injEq] at h
    subst h
    rw [sortByCombinedDesc, List.mem_mergeSort] at hp
    split at heq
    · split at heq
      · cases heq; exact hrec p hp
      · cases heq
    · split at heq
      · split at heq
        · cases heq; exact hrec p hp
        · cases heq
      · split at heq
        · split at heq
          · split at heq
            · cases heq
              exact mem_applyScores_inv config recs _ hrec p hp
            · split at heq
              · cases heq
                exact mem_applyScores_inv config recs _ hrec p hp
              · cases heq
          · cases heq; exact hrec p hp
        · cases heq; exact hrec p hp
  case _ e heq =>
    cases h

/-- Helper: every candidate built by the content-retrieval stage carries
three zero scores. -/
theorem mem_content_inv (retrieve : Option String → List ProductRow)
    (up : Option String) (p : EnhancedProduct)
    (h : p ∈ getContentRecommendations retrieve up) :
    p.similarity_score = 0 ∧ p.ai_relevance_score = 0 ∧
    p.combined_score = 0 := by
  simp only [getContentRecommendations, List.mem_map] at h
  obtain ⟨row, _, rfl⟩ := h
  exact ⟨rfl, rfl, rfl⟩

/-- C9: every candidate in a successfully returned recommendation list has
`similarity_score = 0.0` — the retrieval-stage cosine similarities are never
stored on the candidates — so the combined score effectively equals
`ai_enhancement_weight * ai_relevance_score`. -/
theorem c9_similarity_always_zero (config : RecommendationConfig)
    (hasClient : Bool)
    (proc : String → String → Except Exc AIAnalysisResult)
    (loads : String → Except Exc Json)
    (retrieve : Option String → List ProductRow)
    (request : AIEnhancedRecommendationRequest)
    (response : EnhancedRecommendationResponse)
    (h : get_recommendations config hasClient proc loads retrieve request =
      .ok response) :
    ∀ p ∈ response.recommendations,
      p.similarity_score = 0 ∧
      p.combined_score =
        config.ai_enhancement_weight * p.ai_relevance_score := by
  intro p hp
  simp only [get_recommendations] at h
  split at h
  · cases h
  case _ user_profile hprof =>
    split at h
    · cases h
    case _ enhanced hscore =>
      split at h
      · cases h
      case _ explanation hexpl =>
        simp only [Except.ok.injEq] at h
        subst h
        simp only at hp
        have hmem := List.mem_of_mem_take hp
        have hinv : ∀ q ∈ getContentRecommendations retrieve user_profile,
            q.similarity_score = 0 ∧
            q.combined_score =
              config.ai_enhancement_weight * q.ai_relevance_score := by
          intro q hq
          obtain ⟨h1, h2, h3⟩ := mem_content_inv retrieve user_profile q hq
          exact ⟨h1, by rw [h3, h2, mul_zero]⟩
        split at hscore
        · exact mem_aiScore_inv config loads _ _ _ hscore hinv p hmem
        · simp only [Except.ok.injEq] at hscore
          subst hscore
          exact hinv p hmem

/-- Witness for C9 at a concrete request (AI disabled, one product). -/
theorem c9_similarity_always_zero_witness :
    (rowToEnhancedProduct { id := "1", name := "A" }).similarity_score = 0 ∧
    (rowToEnhancedProduct { id := "1", name := "A" }).combined_score =
      (0.4 : ℚ) *
        (rowToEnhancedProduct { id := "1", name := "A" }).ai_relevance_score :=
  c9_similarity_always_zero
    { ai_processing := { enabled := false }
      content_similarity_weight := 0.6
      ai_enhancement_weight := 0.4 }
    false
    (fun _ _ => .error .aiClientError)
    (fun _ => .error .jsonDecodeError)
    (fun _ => [{ id := "1", name := "A" }])
    { user_id := "u1" }
    { user_id := "u1"
      recommendations := [rowToEnhancedProduct { id := "1", name := "A" }]
      ai_processing_used := false
      explanation := none }
    rfl
    (rowToEnhancedProduct { id := "1", name := "A" })
    (List.mem_singleton.mpr rfl)

/-- Helper: running the score-assignment loop on candidates `ra ++ r :: rb`
against scores `xsa ++ "s" :: xsb`, where each entry of `xsa` converts to a
float but `s` is a non-numeric string, updates exactly the candidates of
`ra`, leaves `r :: rb` untouched, and raises `ValueError` at the offending
entry. -/
theorem applyScores_partial (config : RecommendationConfig) :
    ∀ (ra : List EnhancedProduct) (xsa : List Json) (qs : List ℚ),
      List.Forall₂ (fun j q => pyFloat j = Except.ok q) xsa qs →
      ra.length = xsa.length →
      ∀ (r : EnhancedProduct) (rb : List EnhancedProduct) (s : String)
        (xsb : List Json), parsePyFloat s = none →
      applyScores config (ra ++ r :: rb) (xsa ++ .str s :: xsb) =
        (List.zipWith (fun p q => updateScore config p q) ra qs ++ r :: rb,
         some .valueError) := by
  intro ra
  induction ra with
  | nil =>
      intro xsa qs hf hlen r rb s xsb hs
      have : xsa = [] := List.length_eq_zero.mp hlen.symm
      subst this
      cases hf
      simp only [List.nil_append, List.zipWith_nil_right, applyScores,
        pyFloat, hs]
  | cons a ra' ih =>
      intro xsa qs hf hlen r rb s xsb hs
      cases xsa with
      | nil => simp at hlen
      | cons j xsa' =>
          cases hf with
          | cons hj hf' =>
              rename_i q qs'
              simp only [List.length_cons, Nat.add_right_cancel_iff] at hlen
              simp only [List.cons_append, applyScores, hj, List.append_eq]
              rw [ih xsa' qs' hf' hlen r rb s xsb hs]
              simp

/-- C10 (amended): when the scoring response decodes to a JSON array
matching the candidate count whose entry at index `k > 0` is a string that
does not parse as a float (so `float(score)` raises `ValueError`, which the
`except` clause catches), the re-scoring step updates the AI-relevance and
combined scores of candidates at indices `0 .. k-1`, leaves the candidates
from index `k` onward unchanged, does not raise, and returns the (stable)
re-sort of that partially updated list — score assignment is not atomic on a
mid-array decode failure.  (For entries such as `null` the conversion raises
`TypeError` instead, which escapes — see the counterexample.) -/
theorem c10_partial_update (config : RecommendationConfig)
    (loads : String → Except Exc Json) (result : AIAnalysisResult)
    (ra rb : List EnhancedProduct) (r : EnhancedProduct)
    (xsa xsb : List Json) (qs : List ℚ) (s : String)
    (hload : loads result.processed_data = .ok (.arr (xsa ++ .str s :: xsb)))
    (hs : parsePyFloat s = none)
    (hqs : List.Forall₂ (fun j q => pyFloat j = Except.ok q) xsa qs)
    (hra : ra.length = xsa.length)
    (hrb : rb.length = xsb.length) :
    aiScoreRecommendations config loads (.ok result) (ra ++ r :: rb) =
      .ok (sortByCombinedDesc
        (List.zipWith (fun p q => updateScore config p q) ra qs ++
          r :: rb)) := by
  have hlen : (xsa ++ Json.str s :: xsb).length = (ra ++ r :: rb).length := by
    simp [hra, hrb]
  have happ := applyScores_partial config ra xsa qs hqs hra r rb s xsb hs
  simp only [aiScoreRecommendations, hload]
  rw [if_pos hlen, happ]
  rfl

/-- Witness for C10 (amended): two candidates, scores `[0.9, "abc"]` — the
first candidate is updated, the second untouched, no exception escapes. -/
theorem c10_partial_update_witness :
    aiScoreRecommendations
      { ai_processing := { enabled := true } }
      (fun t => if t = "resp" then
          .ok (.arr [.num 0.9, .str "abc"]) else .error .jsonDecodeError)
      (.ok { original_data := "", processed_data := "resp", analysis := "",
             confidence_score := 0, processing_time := 0, tokens_used := 0 })
      ([{ id := "1", name := "A" }] ++ { id := "2", name := "B" } :: []) =
      .ok (sortByCombinedDesc
        (List.zipWith
          (fun p q => updateScore { ai_processing := { enabled := true } } p q)
          [{ id := "1", name := "A" }] [0.9] ++
          { id := "2", name := "B" } :: [])) :=
  c10_partial_update
    { ai_processing := { enabled := true } }
    (fun t => if t = "resp" then
        .ok (.arr [.num 0.9, .str "abc"]) else .error .jsonDecodeError)
    { original_data := "", processed_data := "resp", analysis := "",
      confidence_score := 0, processing_time := 0, tokens_used := 0 }
    [{ id := "1", name := "A" }] [] { id := "2", name := "B" }
    [.num 0.9] [] [0.9] "abc"
    rfl (by decide) (List.Forall₂.cons rfl List.Forall₂.nil) rfl rfl

/-- C1 (amended): `get_recommendations` never raises solely because an AI
provider call fails with a typed AI client error (the `AIClientError`
hierarchy — what HTTP status failures are wrapped into): when every AI call
fails that way, the profile, scoring, and explanation sub-steps each degrade
to absent/unscored and the request still returns the pure content-based
candidate ranking with no explanation and all AI/combined scores zero.
Transport failures (network timeouts, provider unavailability) are *not*
`AIClientError`s and do propagate — see the counterexample. -/
theorem c1_ai_failure_degrades (config : RecommendationConfig)
    (proc : String → String → Except Exc AIAnalysisResult)
    (loads : String → Except Exc Json)
    (retrieve : Option String → List ProductRow)
    (request : AIEnhancedRecommendationRequest)
    (hreq : request.ai_processing_enabled = true)
    (hcfg : config.ai_processing.enabled = true)
    (hproc : ∀ d s, ∃ e, proc d s = .error e ∧ e.isAIClientError = true) :
    get_recommendations config true proc loads retrieve request =
      .ok { user_id := request.user_id
            recommendations :=
              (sortByCombinedDesc
                (getContentRecommendations retrieve none)).take
                request.num_recommendations
            ai_processing_used := true
            explanation := none } ∧
    ∀ p ∈ (sortByCombinedDesc
        (getContentRecommendations retrieve none)).take
        request.num_recommendations,
      p.similarity_score = 0 ∧ p.ai_relevance_score = 0 ∧
      p.combined_score = 0 := by
  have hprofile : generateUserProfile proc request = .ok none := by
    unfold generateUserProfile
    split
    · rfl
    · obtain ⟨e, he, hcl⟩ := hproc (profileData request) profileSystemPrompt
      rw [he]
      simp [hcl]
  have hscore : ∀ recs,
      aiScoreRecommendations config loads
        (proc (productsText recs) (scoringPrompt request none)) recs =
      .ok (sortByCombinedDesc recs) := by
    intro recs
    obtain ⟨e, he, hcl⟩ := hproc (productsText recs)
      (scoringPrompt request none)
    simp [aiScoreRecommendations, he, hcl]
  have hexpl : ∀ recs, generateExplanation proc recs request = .ok none := by
    intro recs
    unfold generateExplanation
    obtain ⟨e, he, hcl⟩ := hproc (explanationProductsText (recs.take 3))
      (explanationPrompt request)
    rw [he]
    simp [hcl]
  constructor
  · simp only [get_recommendations, hreq, hcfg, Bool.true_and,
      Bool.and_self, if_true, hprofile, hscore, hexpl]
  · intro p hp
    have hmem : p ∈ getContentRecommendations retrieve none := by
      have := List.mem_of_mem_take hp
      rwa [sortByCombinedDesc, List.mem_mergeSort] at this
    simp only [getContentRecommendations, List.mem_map] at hmem
    obtain ⟨row, _, rfl⟩ := hmem
    exact ⟨rfl, rfl, rfl⟩

/-- Witness for C1 (amended): an enabled engine whose every AI call raises
the generic `AIClientError` still returns the content ranking. -/
theorem c1_ai_failure_degrades_witness :
    get_recommendations
      { ai_processing := { enabled := true } } true
      (fun _ _ => .error .aiClientError)
      (fun _ => .error .jsonDecodeError)
      (fun _ => [{ id := "1", name := "A" }])
      { user_id := "u1", user_preferences := some "books" } =
      .ok { user_id := "u1"
            recommendations :=
              (sortByCombinedDesc
                (getContentRecommendations
                  (fun _ => [{ id := "1", name := "A" }]) none)).take 5
            ai_processing_used := true
            explanation := none } :=
  (c1_ai_failure_degrades
    { ai_processing := { enabled := true } }
    (fun _ _ => .error .aiClientError)
    (fun _ => .error .jsonDecodeError)
    (fun _ => [{ id := "1", name := "A" }])
    { user_id := "u1", user_preferences := some "books" }
    rfl rfl (fun _ _ => ⟨.aiClientError, rfl, rfl⟩)).1

end StoreRec
